import Mathlib

/-!
Shallow embedding of the LeadTrackr repository's core logic:
the leads Redux slice (src/app/_layout.tsx, leadsSlice), the auth slice
(src/Store/authSlice.ts), the startup redirect (src/app/index.tsx), and
the per-call-site persistence writes (src/app/(protected)/tableData and
src/app/(protected)/addLeadForm.tsx).
-/

namespace LeadTrackr

/-- The `status` enum of a lead: 'New' | 'Contacted' | 'Qualified' | 'Lost'. -/
inductive LeadStatus where
  | New
  | Contacted
  | Qualified
  | Lost
deriving DecidableEq, Repr

/-- The `source` enum of a lead: 'Website' | 'Referral' | 'Cold Call' | 'Social Media'. -/
inductive LeadSource where
  | Website
  | Referral
  | ColdCall
  | SocialMedia
deriving DecidableEq, Repr

/-- The Lead record from leadsSlice (interface Lead). -/
structure Lead where
  id : String
  name : String
  company : String
  email : String
  phone : String
  status : LeadStatus
  source : LeadSource
  notes : String
deriving DecidableEq, Repr

/-- Reducer setLeads: replaces the entire leads array with the payload. -/
def setLeads (_state : List Lead) (payload : List Lead) : List Lead :=
  payload

/-- Reducer addLead: `state.leads.push(action.payload)`. -/
def addLead (state : List Lead) (payload : Lead) : List Lead :=
  state ++ [payload]

/-- `Array.prototype.findIndex` on the id field: index of the first element whose
id equals `pid`, `none` when there is no such element (the source's -1). -/
def findIndexById (pid : String) : List Lead → Option Nat
  | [] => none
  | l :: ls => if l.id = pid then some 0 else (findIndexById pid ls).map (· + 1)

/-- Reducer updateLead: `findIndex(l => l.id === payload.id)`, and when the index
is not -1, `state.leads[idx] = payload`. -/
def updateLead (state : List Lead) (payload : Lead) : List Lead :=
  match findIndexById payload.id state with
  | some idx => state.set idx payload
  | none => state

/-- Reducer deleteLead: `state.leads.filter(l => l.id !== action.payload)`. -/
def deleteLead (state : List Lead) (payload : String) : List Lead :=
  state.filter (fun l => l.id != payload)

/-- Unfolding of updateLead on a cons cell. -/
theorem updateLead_cons (l : Lead) (ls : List Lead) (p : Lead) :
    updateLead (l :: ls) p =
      if l.id = p.id then p :: ls else l :: updateLead ls p := by
  by_cases h : l.id = p.id
  · simp [updateLead, findIndexById, h]
  · simp only [updateLead, findIndexById, h, if_neg, if_false]
    cases hfi : findIndexById p.id ls <;> simp [hfi, List.set]

/-- Sample lead used by witnesses. -/
def leadA : Lead :=
  { id := "a", name := "Alice", company := "Acme", email := "alice@acme.com",
    phone := "111", status := LeadStatus.New, source := LeadSource.Website, notes := "" }

/-- Second sample lead with a distinct id, used by witnesses. -/
def leadB : Lead :=
  { id := "b", name := "Bob", company := "Beta", email := "bob@beta.com",
    phone := "222", status := LeadStatus.Contacted, source := LeadSource.Referral, notes := "n" }

/-- If no element of the list has id `pid`, findIndexById returns none. -/
theorem findIndexById_eq_none (pid : String) (ls : List Lead)
    (h : ∀ l ∈ ls, l.id ≠ pid) : findIndexById pid ls = none := by
  induction ls with
  | nil => rfl
  | cons l ls ih =>
    simp only [findIndexById, if_neg (h l (List.mem_cons_self l ls))]
    rw [ih (fun x hx => h x (List.mem_cons_of_mem l hx))]
    rfl

/-- Claim C4: updateLead replaces the first entry whose id equals the payload's
id with the payload (the collection becomes the original with that position set
to the payload), and when no entry has a matching id the collection is left
entirely unchanged. -/
theorem C4_updateLead_replaces_first (leads : List Lead) (p : Lead) :
    ((∀ l ∈ leads, l.id ≠ p.id) → updateLead leads p = leads) ∧
    (∀ i q, leads[i]? = some q → q.id = p.id →
      (∀ j r, j < i → leads[j]? = some r → r.id ≠ p.id) →
      updateLead leads p = leads.set i p) := by
  constructor
  · intro h
    unfold updateLead
    rw [findIndexById_eq_none p.id leads h]
  · induction leads with
    | nil => intro i q hq; simp at hq
    | cons l ls ih =>
      intro i q hq hid hfirst
      match i with
      | 0 =>
        simp only [List.getElem?_cons_zero, Option.some.injEq] at hq
        rw [updateLead_cons, if_pos (hq ▸ hid)]
        rfl
      | Nat.succ i =>
        have hl : l.id ≠ p.id := by
          have := hfirst 0 l (Nat.succ_pos i) (by simp)
          exact this
        rw [updateLead_cons, if_neg hl]
        have hq2 : ls[i]? = some q := by simpa using hq
        have hrec := ih i q hq2 hid (fun j r hj hr =>
          hfirst (j + 1) r (Nat.succ_lt_succ hj) (by simpa using hr))
        rw [hrec]
        rfl

/-- Witness for C4 at a concrete two-element collection: an update whose id
matches the second entry replaces exactly that entry. -/
theorem C4_witness :
    updateLead [leadA, leadB] { leadB with company := "BetaNew" }
      = [leadA, { leadB with company := "BetaNew" }] := by
  have h := (C4_updateLead_replaces_first [leadA, leadB]
      { leadB with company := "BetaNew" }).2 1 leadB (by decide) (by decide)
      (fun j r hj hr => by
        interval_cases j
        · simp at hr; subst hr; decide)
  simpa using h

/-- Claim C5: deleteLead removes exactly the entries whose id equals the given
id (every surviving entry has a different id, every entry with a different id
survives), and when no entry matches, the collection is unchanged. -/
theorem C5_deleteLead_removes_matches (leads : List Lead) (id : String) :
    (∀ l ∈ deleteLead leads id, l.id ≠ id) ∧
    (∀ l ∈ leads, l.id ≠ id → l ∈ deleteLead leads id) ∧
    ((∀ l ∈ leads, l.id ≠ id) → deleteLead leads id = leads) := by
  refine ⟨?_, ?_, ?_⟩
  · intro l hl
    have := List.of_mem_filter hl
    simpa [bne_iff_ne] using this
  · intro l hl hne
    exact List.mem_filter_of_mem hl (by simpa [bne_iff_ne] using hne)
  · intro h
    apply List.filter_eq_self.mpr
    intro l hl
    simpa [bne_iff_ne] using h l hl

/-- Witness for C5 at a concrete collection: deleting id "a" from [leadA, leadB]
keeps leadB, and deleting an absent id leaves the collection unchanged. -/
theorem C5_witness :
    leadB ∈ deleteLead [leadA, leadB] "a" ∧ deleteLead [leadA, leadB] "zz" = [leadA, leadB] := by
  constructor
  · exact (C5_deleteLead_removes_matches [leadA, leadB] "a").2.1 leadB (by decide) (by decide)
  · exact (C5_deleteLead_removes_matches [leadA, leadB] "zz").2.2 (by decide)

/-- Claim C8: addLead appends the lead at the end of the collection — the length
grows by one, every existing entry keeps its original position, and the new lead
sits at the former length — with no uniqueness condition on its id. -/
theorem C8_addLead_appends (leads : List Lead) (l : Lead) :
    (addLead leads l).length = leads.length + 1 ∧
    (∀ i, i < leads.length → (addLead leads l)[i]? = leads[i]?) ∧
    (addLead leads l)[leads.length]? = some l := by
  refine ⟨by simp [addLead], ?_, ?_⟩
  · intro i hi
    simp [addLead, List.getElem?_append, hi]
  · simp [addLead, List.getElem?_append]

/-- Witness for C8: appending leadA (whose id already occurs) to [leadA] keeps
the original first entry in place and puts the copy at index 1. -/
theorem C8_witness :
    (addLead [leadA] leadA)[0]? = some leadA ∧ (addLead [leadA] leadA)[1]? = some leadA := by
  refine ⟨?_, (C8_addLead_appends [leadA] leadA).2.2⟩
  have h := (C8_addLead_appends [leadA] leadA).2.1 0 (by decide)
  simpa using h

/-- Claim C10: updateLead preserves the length of the collection and leaves
every entry whose id differs from the payload's id unchanged in content and
position; deleteLead yields a sublist, so the relative order of the remaining
entries is preserved. -/
theorem C10_frame_conditions (leads : List Lead) (p : Lead) (did : String) :
    (updateLead leads p).length = leads.length ∧
    (∀ (i : Nat) (q : Lead), leads[i]? = some q → q.id ≠ p.id →
      (updateLead leads p)[i]? = some q) ∧
    (deleteLead leads did).Sublist leads := by
  refine ⟨?_, ?_, List.filter_sublist leads⟩
  · unfold updateLead
    cases findIndexById p.id leads <;> simp
  · induction leads with
    | nil => intro i q hq; simp at hq
    | cons l ls ih =>
      intro i q hq hne
      cases i with
      | zero =>
        simp only [List.getElem?_cons_zero, Option.some.injEq] at hq
        subst hq
        rw [updateLead_cons, if_neg hne]
        simp
      | succ i =>
        simp only [List.getElem?_cons_succ] at hq
        rw [updateLead_cons]
        by_cases hl : l.id = p.id
        · rw [if_pos hl]
          simpa using hq
        · rw [if_neg hl]
          simpa using ih i q hq hne

/-- Witness for C10: updating [leadA, leadB] with a payload carrying id "b"
keeps length 2 and leaves leadA (different id) untouched at position 0. -/
theorem C10_witness :
    (updateLead [leadA, leadB] { leadB with notes := "x" }).length = 2 ∧
    (updateLead [leadA, leadB] { leadB with notes := "x" })[0]? = some leadA := by
  have h := C10_frame_conditions [leadA, leadB] { leadB with notes := "x" } "a"
  exact ⟨h.1, h.2.1 0 leadA (by decide) (by decide)⟩

/-- JSON values, as produced by JSON.stringify / consumed by JSON.parse at the
persistence call sites; leads only ever serialize to strings, arrays and
objects. -/
inductive Json where
  | str (s : String)
  | arr (xs : List Json)
  | obj (fields : List (String × Json))
  | null

/-- The string literal of a LeadStatus in the serialized form. -/
def LeadStatus.toStr : LeadStatus → String
  | LeadStatus.New => "New"
  | LeadStatus.Contacted => "Contacted"
  | LeadStatus.Qualified => "Qualified"
  | LeadStatus.Lost => "Lost"

/-- The string literal of a LeadSource in the serialized form. -/
def LeadSource.toStr : LeadSource → String
  | LeadSource.Website => "Website"
  | LeadSource.Referral => "Referral"
  | LeadSource.ColdCall => "Cold Call"
  | LeadSource.SocialMedia => "Social Media"

/-- Reading a LeadStatus back from its serialized string. -/
def statusOfStr : String → Option LeadStatus
  | "New" => some LeadStatus.New
  | "Contacted" => some LeadStatus.Contacted
  | "Qualified" => some LeadStatus.Qualified
  | "Lost" => some LeadStatus.Lost
  | _ => none

/-- Reading a LeadSource back from its serialized string. -/
def sourceOfStr : String → Option LeadSource
  | "Website" => some LeadSource.Website
  | "Referral" => some LeadSource.Referral
  | "Cold Call" => some LeadSource.ColdCall
  | "Social Media" => some LeadSource.SocialMedia
  | _ => none

/-- Serialization of one lead: the JSON object JSON.stringify produces for a
Lead record, fields in declaration order. -/
def leadToJson (l : Lead) : Json :=
  Json.obj [("id", Json.str l.id), ("name", Json.str l.name),
    ("company", Json.str l.company), ("email", Json.str l.email),
    ("phone", Json.str l.phone), ("status", Json.str l.status.toStr),
    ("source", Json.str l.source.toStr), ("notes", Json.str l.notes)]

/-- Serialization of the leads collection: a JSON array of lead objects. -/
def leadsToJson (ls : List Lead) : Json :=
  Json.arr (ls.map leadToJson)

/-- Property lookup on a parsed JSON object. -/
def lookupField (fields : List (String × Json)) (k : String) : Option Json :=
  match fields with
  | [] => none
  | (key, v) :: rest => if key = k then some v else lookupField rest k

/-- Reading a string property of a parsed JSON object. -/
def getStrField (fields : List (String × Json)) (k : String) : Option String :=
  match lookupField fields k with
  | some (Json.str s) => some s
  | _ => none

/-- Reading one lead back from a parsed JSON value (the object shape written by
leadToJson; fetchLeads itself does no validation, so a parsed entry is a lead
exactly when its fields read back). -/
def jsonToLead (j : Json) : Option Lead :=
  match j with
  | Json.obj fields =>
    match getStrField fields "id", getStrField fields "name",
        getStrField fields "company", getStrField fields "email",
        getStrField fields "phone", getStrField fields "status",
        getStrField fields "source", getStrField fields "notes" with
    | some i, some n, some c, some e, some ph, some st, some so, some no =>
      match statusOfStr st, sourceOfStr so with
      | some stv, some sov =>
        some { id := i, name := n, company := c, email := e, phone := ph,
               status := stv, source := sov, notes := no }
      | _, _ => none
    | _, _, _, _, _, _, _, _ => none
  | _ => none

/-- Reading a list of leads back from a list of parsed JSON values. -/
def jsonToLeadList : List Json → Option (List Lead)
  | [] => some []
  | j :: js =>
    match jsonToLead j, jsonToLeadList js with
    | some l, some ls => some (l :: ls)
    | _, _ => none

/-- Reading the whole collection back from a parsed JSON value. -/
def jsonToLeads (j : Json) : Option (List Lead) :=
  match j with
  | Json.arr xs => jsonToLeadList xs
  | _ => none

/-- One lead round-trips through serialization. -/
theorem jsonToLead_leadToJson (l : Lead) : jsonToLead (leadToJson l) = some l := by
  cases l with
  | mk i n c e ph st so no =>
    cases st <;> cases so <;> rfl

/-- Claim C6: serializing any leads collection and rehydrating via setLeads from
the parsed form yields a collection identical to the original, order preserved. -/
theorem C6_roundtrip (old ls : List Lead) :
    jsonToLeads (leadsToJson ls) = some ls ∧ setLeads old ls = ls := by
  refine ⟨?_, rfl⟩
  induction ls with
  | nil => rfl
  | cons l ls ih =>
    simp only [leadsToJson, List.map_cons, jsonToLeads, jsonToLeadList,
      jsonToLead_leadToJson]
    simp only [leadsToJson, jsonToLeads] at ih
    rw [ih]

/-- The profile object returned by GET /auth/profile; treated opaquely by the
app except for the fields shown in the UI. -/
structure User where
  email : String
  name : String
  avatar : String
deriving DecidableEq, Repr

/-- The auth slice state: user, token, loading, error. -/
structure AuthState where
  user : Option User
  token : Option String
  loading : Bool
  error : Option String
deriving DecidableEq, Repr

/-- The auth slice initialState. -/
def authInitialState : AuthState :=
  { user := none, token := none, loading := false, error := none }

/-- An effect on the expo-secure-store key-value store. -/
inductive SecureStoreOp where
  | setItem (key value : String)
  | deleteItem (key : String)
deriving DecidableEq, Repr

/-- Reducer for loginUser.pending: loading true, error cleared. -/
def loginUserPending (s : AuthState) : AuthState :=
  { s with loading := true, error := none }

/-- Reducer for loginUser.fulfilled: loading false, token and user from the
payload. -/
def loginUserFulfilled (s : AuthState) (access_token : String) (user : User) : AuthState :=
  { s with loading := false, token := some access_token, user := some user }

/-- Reducer for loginUser.rejected: loading false, error set to the payload
string, "An error occurred" when the payload is nullish. -/
def loginUserRejected (s : AuthState) (payload : Option String) : AuthState :=
  { s with loading := false, error := some (payload.getD "An error occurred") }

/-- Reducer logout: clears user and token. -/
def logout (s : AuthState) : AuthState :=
  { s with user := none, token := none }

/-- Reducer for logoutUser.fulfilled: clears user and token. -/
def logoutUserFulfilled (s : AuthState) : AuthState :=
  { s with user := none, token := none }

/-- JavaScript's `a || b` on strings: the empty string is falsy. -/
def strOr (a b : String) : String :=
  if a = "" then b else a

/-- Outcome of one run's two remote calls inside the loginUser thunk.
For the login POST: a thrown message (fetch or json rejecting), or the parsed
body's status, `message` field (empty string when absent) and `access_token`.
For the profile GET: a thrown message, or `response.ok`, the body's `message`
field and the parsed profile. -/
structure LoginEnv where
  loginResp : Except String (Nat × String × String)
  profileResp : Except String (Bool × String × User)

/-- Assumption on runtime-thrown errors: messages of exceptions raised by fetch
or json parsing are non-empty human-readable strings. -/
def LoginEnv.throwsNonempty (env : LoginEnv) : Prop :=
  (∀ e, env.loginResp = Except.error e → e ≠ "") ∧
  (∀ e, env.profileResp = Except.error e → e ≠ "")

/-- The loginUser thunk body: POST /auth/login, throw on status other than 201,
store the token in SecureStore, GET /auth/profile with the token, throw when it
is not ok, otherwise fulfill with token and user. Returns the thunk outcome and
the SecureStore writes performed during the run. -/
def loginUserRun (env : LoginEnv) : Except String (String × User) × List SecureStoreOp :=
  match env.loginResp with
  | Except.error e => (Except.error e, [])
  | Except.ok (status, message, access_token) =>
    if status ≠ 201 then (Except.error (strOr message "login Failed"), [])
    else
      let writes := [SecureStoreOp.setItem "token" access_token]
      match env.profileResp with
      | Except.error e => (Except.error e, writes)
      | Except.ok (ok, pmessage, user) =>
        if !ok then (Except.error (strOr pmessage "Failed to fetch user profile"), writes)
        else (Except.ok (access_token, user), writes)

/-- Dispatching loginUser from a state: pending fires, then fulfilled or
rejected according to the thunk outcome; paired with the SecureStore writes. -/
def dispatchLoginUser (s : AuthState) (env : LoginEnv) : AuthState × List SecureStoreOp :=
  match loginUserRun env with
  | (Except.ok (tok, user), ops) => (loginUserFulfilled (loginUserPending s) tok user, ops)
  | (Except.error e, ops) => (loginUserRejected (loginUserPending s) (some e), ops)

/-- The logoutUser thunk followed by its fulfilled reducer: deletes the
SecureStore "token" key, dispatches logout, makes no remote call. Returns the
new state, the SecureStore effects, and the list of HTTP requests issued. -/
def logoutUserRun (s : AuthState) : AuthState × List SecureStoreOp × List String :=
  (logoutUserFulfilled (logout s), [SecureStoreOp.deleteItem "token"], [])

/-- When its fallback is non-empty, the result of `a || b` is non-empty. -/
theorem strOr_ne_empty (a b : String) (hb : b ≠ "") : strOr a b ≠ "" := by
  unfold strOr
  split
  · exact hb
  · assumption

/-- On any error, loginUserRun's message is non-empty, given that runtime-thrown
messages are. -/
theorem loginUserRun_error_ne_empty (env : LoginEnv)
    (hne : env.throwsNonempty) (e : String) (ops : List SecureStoreOp)
    (h : loginUserRun env = (Except.error e, ops)) : e ≠ "" := by
  unfold LoginEnv.throwsNonempty at hne
  obtain ⟨lresp, presp⟩ := env
  obtain ⟨hne1, hne2⟩ := hne
  cases lresp with
  | error m =>
    simp only [loginUserRun, Prod.mk.injEq, Except.error.injEq] at h
    exact h.1 ▸ hne1 m rfl
  | ok trip =>
    obtain ⟨status, message, access_token⟩ := trip
    simp only [loginUserRun] at h
    split at h
    · simp only [Prod.mk.injEq, Except.error.injEq] at h
      exact h.1 ▸ strOr_ne_empty message "login Failed" (by decide)
    · cases presp with
      | error m =>
        simp only [Prod.mk.injEq, Except.error.injEq] at h
        exact h.1 ▸ hne2 m rfl
      | ok trip2 =>
        obtain ⟨pok, pmessage, user⟩ := trip2
        cases pok with
        | true => simp at h
        | false =>
          simp only [Bool.not_false, if_true, Prod.mk.injEq, Except.error.injEq] at h
          exact h.1 ▸ strOr_ne_empty pmessage "Failed to fetch user profile" (by decide)

/-- Claim C3: every failing run of loginUser leaves user and token unchanged
and sets error to a non-empty message; when the failure is the login endpoint
rejecting the credentials (status other than 201), no SecureStore key is
written, so a null token stays null with no persisted token. -/
theorem C3_loginUser_failure (s : AuthState) (env : LoginEnv)
    (hne : env.throwsNonempty) (e : String) (ops : List SecureStoreOp)
    (hrun : loginUserRun env = (Except.error e, ops)) :
    (dispatchLoginUser s env).1.user = s.user ∧
    (dispatchLoginUser s env).1.token = s.token ∧
    (dispatchLoginUser s env).1.error = some e ∧
    e ≠ "" ∧
    (∀ st m tk, env.loginResp = Except.ok (st, m, tk) → st ≠ 201 → ops = []) := by
  have hstate : dispatchLoginUser s env
      = (loginUserRejected (loginUserPending s) (some e), ops) := by
    unfold dispatchLoginUser
    rw [hrun]
  refine ⟨?_, ?_, ?_, loginUserRun_error_ne_empty env hne e ops hrun, ?_⟩
  · rw [hstate]; rfl
  · rw [hstate]; rfl
  · rw [hstate]; rfl
  · intro st m tk hl hst
    have hval : loginUserRun env = (Except.error (strOr m "login Failed"), []) := by
      simp [loginUserRun, hl, hst]
    rw [hval] at hrun
    simp only [Prod.mk.injEq] at hrun
    exact hrun.2.symm

/-- Concrete environment of a run where the login endpoint rejects the
credentials with a 401 and the message "Unauthorized". -/
def envBadCreds : LoginEnv :=
  { loginResp := Except.ok (401, "Unauthorized", ""),
    profileResp := Except.ok (true, "", { email := "u@e.com", name := "U", avatar := "" }) }

/-- Witness for C3: from the initial state, a 401 login leaves token null, sets
the error to the non-empty server message, and writes no SecureStore key. -/
theorem C3_witness :
    (dispatchLoginUser authInitialState envBadCreds).1.user = authInitialState.user ∧
    (dispatchLoginUser authInitialState envBadCreds).1.token = authInitialState.token ∧
    (dispatchLoginUser authInitialState envBadCreds).1.error = some "Unauthorized" ∧
    ("Unauthorized" : String) ≠ "" ∧
    (dispatchLoginUser authInitialState envBadCreds).2 = [] := by
  have hthrows : envBadCreds.throwsNonempty :=
    And.intro (fun _ hh => Except.noConfusion hh) (fun _ hh => Except.noConfusion hh)
  have h := C3_loginUser_failure authInitialState envBadCreds hthrows
    "Unauthorized" [] (by rfl)
  have hops : (dispatchLoginUser authInitialState envBadCreds).2 = [] := rfl
  exact ⟨h.1, h.2.1, h.2.2.1, h.2.2.2.1, hops⟩

/-- Claim C7: for every auth state, logoutUser deletes the stored "token" key,
sets user and token to null in memory (leaving the other fields as they were),
and issues no remote call. -/
theorem C7_logoutUser (s : AuthState) :
    (logoutUserRun s).1.user = none ∧
    (logoutUserRun s).1.token = none ∧
    (logoutUserRun s).1.loading = s.loading ∧
    (logoutUserRun s).1.error = s.error ∧
    (logoutUserRun s).2.1 = [SecureStoreOp.deleteItem "token"] ∧
    (logoutUserRun s).2.2 = [] :=
  ⟨rfl, rfl, rfl, rfl, rfl, rfl⟩

/-- Concrete environment of a run where login answers 201 with token "tok123"
but the subsequent profile fetch throws a network error. -/
def envProfileFail : LoginEnv :=
  { loginResp := Except.ok (201, "", "tok123"),
    profileResp := Except.error "Network request failed" }

/-- Claim C9: there is a failing run of loginUser — login answers 201 but the
profile fetch fails — whose SecureStore trace already contains the write of the
new access token (the write precedes the profile check), while the thunk
rejects, user and token stay as they were, and error is set. -/
theorem C9_token_persisted_on_profile_failure :
    (loginUserRun envProfileFail).2 = [SecureStoreOp.setItem "token" "tok123"] ∧
    (loginUserRun envProfileFail).1 = Except.error "Network request failed" ∧
    (dispatchLoginUser authInitialState envProfileFail).1.user = authInitialState.user ∧
    (dispatchLoginUser authInitialState envProfileFail).1.token = authInitialState.token ∧
    (dispatchLoginUser authInitialState envProfileFail).1.error
      = some "Network request failed" :=
  ⟨rfl, rfl, rfl, rfl, rfl⟩

/-- The two destinations of the startup redirect in src/app/index.tsx. -/
inductive Route where
  | protectedTableData
  | authLogin
deriving DecidableEq, Repr

/-- The redirect decision of src/app/index.tsx: while loading, no redirect;
once loading is done, replace with the protected table page when `user` is
set, with the login page otherwise. -/
def indexRedirect (s : AuthState) : Option Route :=
  if s.loading then none
  else if s.user.isSome then some Route.protectedTableData
  else some Route.authLogin

/-- A state where loading is over and the token is present but the profile has
not been fetched yet (exactly the state right after loadToken restores a
session). -/
def stateTokenNoUser : AuthState :=
  { user := none, token := some "tok", loading := false, error := none }

/-- A state where loading is over and the profile is present but no token ever
was (exactly the state after a successful registration-only flow). -/
def stateUserNoToken : AuthState :=
  { user := some { email := "u@e.com", name := "U", avatar := "" },
    token := none, loading := false, error := none }

/-- Counterexample to claim C2: in the state where loading is over, the token
is present but the profile has not been fetched yet, the app routes to the
login screen, not the main screen — so a non-null token does not imply routing
to the main screen, and the decision is not a function of the token alone. -/
theorem C2_counterexample :
    stateTokenNoUser.token = some "tok" ∧
    indexRedirect stateTokenNoUser = some Route.authLogin ∧
    some Route.authLogin ≠ some Route.protectedTableData := by
  exact ⟨rfl, rfl, by decide⟩

/-- Claim C2 as amended: the redirect decision of index.tsx is a function of
`user` (and loading) alone — once loading is false, a non-null user routes
to the main (tableData) screen and a null user routes to the login screen —
and it is entirely insensitive to the token. -/
theorem C2_amended_redirect_on_user :
    (∀ s : AuthState, s.loading = false →
      ((s.user ≠ none → indexRedirect s = some Route.protectedTableData) ∧
       (s.user = none → indexRedirect s = some Route.authLogin))) ∧
    (∀ (s : AuthState) (t : Option String),
      indexRedirect { s with token := t } = indexRedirect s) := by
  constructor
  · intro s hl
    constructor
    · intro hu
      unfold indexRedirect
      rw [hl]
      simp [Option.isSome_iff_exists, Option.ne_none_iff_exists.mp hu]
      obtain ⟨u, hu2⟩ := Option.ne_none_iff_exists.mp hu
      exact ⟨u, hu2.symm⟩
    · intro hu
      unfold indexRedirect
      rw [hl, hu]
      rfl
  · intro s t
    unfold indexRedirect
    rfl

/-- Witness for the amended C2: with loading over, a logged-in profile routes
to the table screen, an absent profile routes to login, and changing the token
alone never changes the decision. -/
theorem C2_amended_witness :
    indexRedirect stateUserNoToken = some Route.protectedTableData ∧
    indexRedirect stateTokenNoUser = some Route.authLogin ∧
    indexRedirect { authInitialState with token := some "tok" }
      = indexRedirect authInitialState := by
  refine ⟨?_, ?_, ?_⟩
  · exact (C2_amended_redirect_on_user.1 stateUserNoToken rfl).1 (by decide)
  · exact (C2_amended_redirect_on_user.1 stateTokenNoUser rfl).2 rfl
  · exact C2_amended_redirect_on_user.2 authInitialState (some "tok")

/-- The namespaced persistence key: `leads_` followed by the current user's
email (getLeadsKey at both call sites). -/
def getLeadsKey (email : String) : String :=
  "leads_" ++ email

/-- The array handleDelete writes: `leads.filter(l => l.id !== id)` computed
from the pre-dispatch in-memory leads. -/
def handleDeletePersisted (leads : List Lead) (id : String) : List Lead :=
  leads.filter (fun l => l.id != id)

/-- The array handleStatusChange writes: `leads.map(l => l.id === lead.id ?
updatedLead : l)` with `updatedLead = { ...lead, status: newStatus }`, computed
from the pre-dispatch in-memory leads. -/
def handleStatusChangePersisted (leads : List Lead) (lead : Lead)
    (newStatus : LeadStatus) : List Lead :=
  leads.map (fun l => if l.id = lead.id then { lead with status := newStatus } else l)

/-- The array the edit branch of onSubmit writes: `leads.map(l => l.id === id ?
lead : l)` computed from the pre-dispatch in-memory leads. -/
def onSubmitEditPersisted (leads : List Lead) (lead : Lead) : List Lead :=
  leads.map (fun l => if l.id = lead.id then lead else l)

/-- The array the add branch of onSubmit writes: the stored array re-read from
AsyncStorage with the new lead pushed at the end. -/
def onSubmitAddPersisted (stored : List Lead) (lead : Lead) : List Lead :=
  stored ++ [lead]

/-- The four mutating UI actions on leads. -/
inductive LeadAction where
  | add (lead : Lead)
  | edit (lead : Lead)
  | delete (id : String)
  | statusChange (lead : Lead) (newStatus : LeadStatus)
deriving DecidableEq, Repr

/-- The reducer each UI action dispatches to the in-memory store. -/
def dispatchAction (leads : List Lead) : LeadAction → List Lead
  | LeadAction.add l => addLead leads l
  | LeadAction.edit l => updateLead leads l
  | LeadAction.delete i => deleteLead leads i
  | LeadAction.statusChange lead s => updateLead leads { lead with status := s }

/-- The array each UI action independently recomputes and persists, from the
pre-dispatch in-memory `leads` (and, for add, from the re-read stored array). -/
def persistAction (leads stored : List Lead) : LeadAction → List Lead
  | LeadAction.add l => onSubmitAddPersisted stored l
  | LeadAction.edit l => onSubmitEditPersisted leads l
  | LeadAction.delete i => handleDeletePersisted leads i
  | LeadAction.statusChange lead s => handleStatusChangePersisted leads lead s

/-- The key-value write each UI action performs: the namespaced key and the
serialized recomputed array. -/
def persistWrite (email : String) (leads stored : List Lead) (a : LeadAction) :
    String × Json :=
  (getLeadsKey email, leadsToJson (persistAction leads stored a))

/-- Replacing by id in a list that does not contain the id changes nothing. -/
theorem map_replace_of_not_mem (ls : List Lead) (pid : String) (q : Lead)
    (h : ∀ x ∈ ls, x.id ≠ pid) :
    ls.map (fun x => if x.id = pid then q else x) = ls := by
  induction ls with
  | nil => rfl
  | cons l ls ih =>
    simp only [List.map_cons, if_neg (h l (List.mem_cons_self l ls))]
    rw [ih (fun x hx => h x (List.mem_cons_of_mem l hx))]

/-- On a collection with pairwise-distinct ids, replacing every entry whose id
matches (the persisted computation) agrees with replacing the first such entry
(the dispatched reducer). -/
theorem map_replace_eq_updateLead (leads : List Lead) (q : Lead)
    (hnodup : (leads.map Lead.id).Nodup) :
    leads.map (fun x => if x.id = q.id then q else x) = updateLead leads q := by
  induction leads with
  | nil => rfl
  | cons l ls ih =>
    simp only [List.map_cons, List.nodup_cons] at hnodup
    obtain ⟨hnotin, hnd⟩ := hnodup
    rw [updateLead_cons]
    by_cases h : l.id = q.id
    · simp only [List.map_cons, if_pos h]
      congr 1
      apply map_replace_of_not_mem
      intro x hx hxid
      exact hnotin (List.mem_map.mpr ⟨x, hx, hxid.trans h.symm⟩)
    · simp only [List.map_cons, if_neg h]
      rw [ih hnd]

/-- Lead sharing leadA's id "a" but with a different name. -/
def leadA2 : Lead :=
  { leadA with name := "Alison" }

/-- A collection holding two leads with the same id "a". -/
def dupLeads : List Lead :=
  [leadA, leadA2]

/-- Edit payload carrying the duplicated id "a". -/
def editP : Lead :=
  { leadA with company := "NewCo" }

/-- Counterexample to claim C1: on a collection with two leads of id "a"
(in-memory matching the persisted entry), the edit action persists an array —
the one its serialized write decodes back to — in which both entries were
replaced, while the dispatched reducer replaces only the first, so the persisted
entry differs from the post-mutation in-memory collection. -/
theorem C1_counterexample :
    jsonToLeads (persistWrite "u" dupLeads dupLeads (LeadAction.edit editP)).2
      = some (persistAction dupLeads dupLeads (LeadAction.edit editP)) ∧
    persistAction dupLeads dupLeads (LeadAction.edit editP)
      ≠ dispatchAction dupLeads (LeadAction.edit editP) := by
  exact ⟨rfl, by decide⟩

/-- Claim C1 as amended: on every collection whose lead ids are pairwise
distinct (the repository's intended invariant) and which matches the persisted
entry, each mutating UI action writes to the key `leads_` email a serialized
array equal to the in-memory collection after the dispatched mutation; in
particular, starting from an empty account, a single add writes exactly that
one lead under that key. -/
theorem C1_amended_persist_matches_dispatch :
    (∀ (email : String) (leads : List Lead) (a : LeadAction),
      (leads.map Lead.id).Nodup →
      persistWrite email leads leads a
        = (getLeadsKey email, leadsToJson (dispatchAction leads a))) ∧
    (∀ (email : String) (l : Lead),
      persistWrite email [] [] (LeadAction.add l) = (getLeadsKey email, leadsToJson [l]) ∧
      dispatchAction [] (LeadAction.add l) = [l]) := by
  constructor
  · intro email leads a hnodup
    have hlist : persistAction leads leads a = dispatchAction leads a := by
      cases a with
      | add l => rfl
      | edit l => exact map_replace_eq_updateLead leads l hnodup
      | delete i => rfl
      | statusChange lead s =>
        exact map_replace_eq_updateLead leads { lead with status := s } hnodup
    unfold persistWrite
    rw [hlist]
  · intro email l
    exact ⟨rfl, rfl⟩

/-- Witness for the amended C1: on the two-lead collection with distinct ids
"a" and "b", a status change persists exactly the post-dispatch serialized
collection, and from an empty account a single add persists exactly that lead. -/
theorem C1_witness :
    persistWrite "u" [leadA, leadB] [leadA, leadB]
        (LeadAction.statusChange leadA LeadStatus.Qualified)
      = (getLeadsKey "u", leadsToJson (dispatchAction [leadA, leadB]
          (LeadAction.statusChange leadA LeadStatus.Qualified))) ∧
    persistWrite "u" [] [] (LeadAction.add leadA) = (getLeadsKey "u", leadsToJson [leadA]) := by
  exact ⟨C1_amended_persist_matches_dispatch.1 "u" [leadA, leadB]
      (LeadAction.statusChange leadA LeadStatus.Qualified) (by decide),
    (C1_amended_persist_matches_dispatch.2 "u" leadA).1⟩

end LeadTrackr
